import Mathlib

set_option maxRecDepth 8000

/-!
Shallow embedding of the libsinsp plugin host (`sinsp_plugin`, plugin.cpp /
plugin.h) and proofs of the specification's claims about it.
-/

/-- Model of a jsoncpp `Json::Value` (the third-party JSON representation used
by plugin.cpp). -/
inductive Json where
  | null : Json
  | bool : Bool → Json
  | num : Int → Json
  | str : String → Json
  | arr : List Json → Json
  | obj : List (String × Json) → Json

/-- Model of `Json::Value::isNull`. -/
def Json.isNull : Json → Bool
  | .null => true
  | _ => false

/-- Model of `Json::Value::isBool`. -/
def Json.isBool : Json → Bool
  | .bool _ => true
  | _ => false

/-- Model of `Json::Value::isString`. -/
def Json.isStr : Json → Bool
  | .str _ => true
  | _ => false

/-- Model of `Json::Value::isArray`. -/
def Json.isArr : Json → Bool
  | .arr _ => true
  | _ => false

/-- Model of `Json::Value::isObject`. -/
def Json.isObj : Json → Bool
  | .obj _ => true
  | _ => false

/-- Model of `Json::Value::asBool` on values already known to be booleans
(plugin.cpp only calls it after an `isBool` check). -/
def Json.asBool : Json → Bool
  | .bool b => b
  | _ => false

/-- Model of `Json::Value::get(key, default-null)` and of the `const`
`operator[](key)`: member lookup on an object, `null` when the member is
absent or the value is `null` itself. jsoncpp would assert on a non-object,
non-null receiver; the theorems below only apply it to objects or null. -/
def Json.getMem : Json → String → Json
  | .obj kvs, k => (kvs.lookup k).getD Json.null
  | _, _ => Json.null

/-- Model of `Json::Value::isConvertibleTo(Json::stringValue)`: true exactly
for scalars (null, bool, numeric, string). -/
def Json.isConvertibleToString : Json → Bool
  | .arr _ => false
  | .obj _ => false
  | _ => true

/-- Model of `Json::Value::asString` on scalars: null yields `""` (this is the
path plugin.cpp relies on for absent members); arrays/objects would assert in
jsoncpp and the theorems below never reach them. -/
def Json.asStringD : Json → String
  | .null => ""
  | .bool b => if b then "true" else "false"
  | .num n => toString n
  | .str s => s
  | .arr _ => ""
  | .obj _ => ""

/-- Whitespace skipping for the JSON reader model. -/
def Json.skipWs : List Char → List Char
  | c :: cs =>
    if c = ' ' ∨ c = '\t' ∨ c = '\n' ∨ c = '\r' then Json.skipWs cs else c :: cs
  | [] => []

/-- Read the body of a JSON string literal (after the opening quote) up to the
closing quote, unescaping `\"` and `\\`. -/
def Json.takeStr : List Char → Option (List Char × List Char)
  | [] => none
  | '"' :: rest => some ([], rest)
  | '\\' :: c :: rest =>
    match Json.takeStr rest with
    | some (s, r) => some (c :: s, r)
    | none => none
  | c :: rest =>
    match Json.takeStr rest with
    | some (s, r) => some (c :: s, r)
    | none => none

/-- Read a maximal run of decimal digits. -/
def Json.takeDigits : List Char → (List Char × List Char)
  | c :: cs =>
    if c.isDigit then
      let p := Json.takeDigits cs
      (c :: p.1, p.2)
    else ([], c :: cs)
  | [] => ([], [])

/-- Numeric value of a digit run. -/
def Json.digitsVal (ds : List Char) : Int :=
  ds.foldl (fun acc c => acc * 10 + ((c.toNat : Int) - 48)) 0

mutual

/-- Model of `Json::Reader::parse` (third-party jsoncpp, not part of the
repository's sources): fueled recursive-descent parse of one JSON value. -/
def Json.parseVal : Nat → List Char → Option (Json × List Char)
  | 0, _ => none
  | Nat.succ fuel, cs =>
    match Json.skipWs cs with
    | 'n' :: 'u' :: 'l' :: 'l' :: rest => some (Json.null, rest)
    | 't' :: 'r' :: 'u' :: 'e' :: rest => some (Json.bool true, rest)
    | 'f' :: 'a' :: 'l' :: 's' :: 'e' :: rest => some (Json.bool false, rest)
    | '"' :: rest =>
      match Json.takeStr rest with
      | some (s, r) => some (Json.str (String.mk s), r)
      | none => none
    | '[' :: rest => Json.parseArr fuel rest
    | '\x7b' :: rest => Json.parseObj fuel rest
    | '-' :: rest =>
      match Json.takeDigits rest with
      | ([], _) => none
      | (ds, r) => some (Json.num (-(Json.digitsVal ds)), r)
    | c :: rest =>
      if c.isDigit then
        match Json.takeDigits (c :: rest) with
        | (ds, r) => some (Json.num (Json.digitsVal ds), r)
      else none
    | [] => none

/-- Array tail of the JSON reader model. -/
def Json.parseArr : Nat → List Char → Option (Json × List Char)
  | 0, _ => none
  | Nat.succ fuel, cs =>
    match Json.skipWs cs with
    | ']' :: rest => some (Json.arr [], rest)
    | cs' =>
      match Json.parseItems fuel cs' with
      | some (items, r) => some (Json.arr items, r)
      | none => none

/-- Comma-separated array items of the JSON reader model. -/
def Json.parseItems : Nat → List Char → Option (List Json × List Char)
  | 0, _ => none
  | Nat.succ fuel, cs =>
    match Json.parseVal fuel cs with
    | none => none
    | some (v, r) =>
      match Json.skipWs r with
      | ',' :: r2 =>
        match Json.parseItems fuel r2 with
        | some (vs, r3) => some (v :: vs, r3)
        | none => none
      | ']' :: r2 => some ([v], r2)
      | _ => none

/-- Object tail of the JSON reader model. -/
def Json.parseObj : Nat → List Char → Option (Json × List Char)
  | 0, _ => none
  | Nat.succ fuel, cs =>
    match Json.skipWs cs with
    | '\x7d' :: rest => some (Json.obj [], rest)
    | cs' =>
      match Json.parseMembers fuel cs' with
      | some (kvs, r) => some (Json.obj kvs, r)
      | none => none

/-- Comma-separated object members of the JSON reader model. -/
def Json.parseMembers : Nat → List Char → Option (List (String × Json) × List Char)
  | 0, _ => none
  | Nat.succ fuel, cs =>
    match Json.skipWs cs with
    | '"' :: rest =>
      match Json.takeStr rest with
      | none => none
      | some (k, r) =>
        match Json.skipWs r with
        | ':' :: r2 =>
          match Json.parseVal fuel r2 with
          | none => none
          | some (v, r3) =>
            match Json.skipWs r3 with
            | ',' :: r4 =>
              match Json.parseMembers fuel r4 with
              | some (kvs, r5) => some ((String.mk k, v) :: kvs, r5)
              | none => none
            | '\x7d' :: r4 => some ([(String.mk k, v)], r4)
            | _ => none
        | _ => none
    | _ => none

end

/-- Model of `Json::Reader().parse(document, root)`: parse a whole document,
requiring that only whitespace remains. -/
def Json.parse (s : String) : Option Json :=
  match Json.parseVal (3 * s.length + 3) s.toList with
  | some (v, r) => if (Json.skipWs r).isEmpty then some v else none
  | none => none

/-- Error constant `s_not_init_err` from plugin.cpp. -/
def s_not_init_err : String := "plugin capability used before init"

/-- Error constant `s_init_twice_err` from plugin.cpp. -/
def s_init_twice_err : String := "plugin has been initialized twice"

/-- The built-in syscall event source name (`sinsp_syscall_event_source_name`). -/
def sinsp_syscall_event_source_name : String := "syscall"

/-- Modelled from the spec: the generic plugin event code
`ppm_event_code::PPME_PLUGINEVENT_E` (driver/ppm_events_public.h is not among
the provided sources); only its identity matters here. -/
def PPME_PLUGINEVENT_E : Nat := 322

/-- Modelled from the spec: `libsinsp::events::all_event_set()`, the set of all
syscall event codes (sinsp_events.h is not among the provided sources);
represented as every event code below the plugin-event code. -/
def all_event_set : List Nat := List.range 322

/-- Model of `ss_plugin_schema_type::SS_PLUGIN_SCHEMA_NONE`. -/
def SS_PLUGIN_SCHEMA_NONE : Nat := 0

/-- Model of `ss_plugin_schema_type::SS_PLUGIN_SCHEMA_JSON`. -/
def SS_PLUGIN_SCHEMA_JSON : Nat := 1

/-- Model of the plugin capability bitset (`plugin_caps_t`): `CAP_SOURCING`,
`CAP_EXTRACTION`, `CAP_PARSING` as individual bits. -/
structure Caps where
  sourcing : Bool
  extraction : Bool
  parsing : Bool
deriving DecidableEq, Repr

/-- Model of `CAP_NONE`. -/
def CAP_NONE : Caps := ⟨false, false, false⟩

/-- Model of the `filtercheck_field_flags` bitmask as a set of named flags. -/
structure FieldFlags where
  is_list : Bool
  arg_required : Bool
  arg_index : Bool
  arg_key : Bool
  arg_allowed : Bool
  table_only : Bool
  field_info : Bool
  conversation : Bool
deriving DecidableEq, Repr

/-- Model of `EPF_NONE`. -/
def EPF_NONE : FieldFlags := ⟨false, false, false, false, false, false, false, false⟩

/-- Model of `ppm_param_type`, restricted to the types named in the plugin
type look-up table `m_pt_lut` of plugin.h. -/
inductive ppm_param_type where
  | PT_CHARBUF
  | PT_UINT64
  | PT_RELTIME
  | PT_ABSTIME
  | PT_BOOL
  | PT_IPV4ADDR
  | PT_IPV4NET
  | PT_IPV6ADDR
  | PT_IPV6NET
  | PT_IPNET
deriving DecidableEq, Repr

/-- Model of `ppm_print_format` (only `PF_DEC` is used by plugin.cpp). -/
inductive ppm_print_format where
  | PF_DEC
deriving DecidableEq, Repr

/-- Model of `filtercheck_field_info` restricted to the members plugin.cpp
fills in (buffer-size truncation by `strlcpy` is not modelled). -/
structure filtercheck_field_info where
  m_name : String
  m_display : String
  m_description : String
  m_type : ppm_param_type
  m_print_format : ppm_print_format
  m_flags : FieldFlags
deriving DecidableEq, Repr

/-- The plugin type look-up table `m_pt_lut` from plugin.h. -/
def m_pt_lut : List (String × ppm_param_type) :=
  [( "string", ppm_param_type.PT_CHARBUF),
   ( "uint64", ppm_param_type.PT_UINT64),
   ( "reltime", ppm_param_type.PT_RELTIME),
   ( "abstime", ppm_param_type.PT_ABSTIME),
   ( "bool", ppm_param_type.PT_BOOL),
   ( "ipv4addr", ppm_param_type.PT_IPV4ADDR),
   ( "ipv4net", ppm_param_type.PT_IPV4NET),
   ( "ipv6addr", ppm_param_type.PT_IPV6ADDR),
   ( "ipv6net", ppm_param_type.PT_IPV6NET),
   ( "ipnet", ppm_param_type.PT_IPNET)]

/-- Model of `sinsp_evt` restricted to what the plugin adapter reads: the
payload of parameter 1 (a byte buffer) and the event metadata handed to the
plugin. -/
structure Event where
  data : List Nat
  num : Nat
  source_idx : Nat
  source_name : String
deriving DecidableEq, Repr

/-- Model of `sinsp_plugin::open_param`. -/
structure open_param where
  value : String
  desc : String
  separator : String
deriving DecidableEq, Repr

/-- Model of the parts of `scap_source_plugin` that `as_scap_source` fills
with plugin-specific data (the copied C function pointers are not modelled). -/
structure scap_source_plugin where
  state : Option Nat
  name : String
  id : Nat
deriving DecidableEq, Repr

/-- Model of a validation error of the valijson library
(`valijson::ValidationResults::Error`): a context path and a description. -/
structure VError where
  context : List String
  description : String
deriving DecidableEq, Repr

/-- Membership test for an object member (presence, as JSON Schema `required`
checks it). -/
def Json.hasMem : Json → String → Bool
  | .obj kvs, k => kvs.any (fun kv => kv.1 = k)
  | _, _ => false

/-- Modelled from the spec: JSON-Schema validation by the valijson library
(`validator.validate(schemaDef, configAdapter, &validationResults)`; valijson
is a third-party dependency, not among the provided sources). Supports the
subset of draft-compatible validation the spec exercises: the `type` keyword
for value `object` and the `required` keyword listing mandatory property
names. `none` means the config is valid; `some errs` means validation failed
with `errs` as the queue of validation errors (top-most first). -/
def valijson_validate (schema config : Json) : Option (List VError) :=
  let typeErrs :=
    match schema.getMem ( "type") with
    | Json.str t =>
      if t = "object" ∧ config.isObj = false then
        [⟨[ "<root>"], "Value type not permitted by \x27type\x27 constraint."⟩]
      else []
    | _ => []
  let reqErrs :=
    match schema.getMem ( "required") with
    | Json.arr ks =>
      ks.filterMap (fun k =>
        match k with
        | Json.str kn =>
          if config.hasMem kn then none
          else some ⟨[ "<root>"], "Missing required property \x27" ++ kn ++ "\x27."⟩
        | _ => none)
    | _ => []
  match typeErrs ++ reqErrs with
  | [] => none
  | es => some es

/-- Character-level split helper for the version model. -/
def splitOnChar (c : Char) : List Char → List (List Char)
  | [] => [[]]
  | x :: xs =>
    let r := splitOnChar c xs
    if x = c then [] :: r
    else
      match r with
      | h :: t => (x :: h) :: t
      | [] => [[x]]

/-- Modelled from the spec: validity of a semantic-version string as judged by
`sinsp_version` (userspace/libsinsp/version.h is not among the provided
sources): three dot-separated numeric components. -/
def sinsp_version_valid (s : String) : Bool :=
  match splitOnChar '.' s.toList with
  | [a, b, c] =>
    !a.isEmpty && !b.isEmpty && !c.isEmpty &&
      a.all Char.isDigit && b.all Char.isDigit && c.all Char.isDigit
  | _ => false

/-- Model of the static helper `str_from_alloc_charbuf`: a NULL charbuf yields
the empty string. -/
def str_from_alloc_charbuf : Option String → String
  | some s => s
  | none => ""

/-- Insertion into an `std::unordered_set<std::string>`, modelled as a
duplicate-free list. -/
def insertStr (l : List String) (x : String) : List String :=
  if x ∈ l then l else l ++ [x]

/-- Insertion into a `libsinsp::events::set<ppm_event_code>`, modelled as a
duplicate-free list of event codes. -/
def insertNat (l : List Nat) (x : Nat) : List Nat :=
  if x ∈ l then l else l ++ [x]

/-- Model of the state of a `sinsp_plugin` object (plugin.h): descriptor
metadata, capability data and the lifecycle members `m_inited` / `m_state`.
`m_state` is the opaque `ss_plugin_t*` returned by the plugin, modelled as an
abstract numeric handle; `m_scap_handle` models whether
`m_scap_source_plugin.handle` is non-null. -/
structure sinsp_plugin where
  m_caps : Caps
  m_name : String
  m_description : String
  m_contact : String
  m_plugin_version : String
  m_id : Nat
  m_event_source : String
  m_inited : Bool
  m_state : Option Nat
  m_scap_handle : Bool
  m_fields : List filtercheck_field_info
  m_extract_event_sources : List String
  m_extract_event_codes : List Nat
  m_parse_event_sources : List String
  m_parse_event_codes : List Nat
deriving DecidableEq, Repr

/-- Model of the `sinsp_plugin` constructor (plugin.h): everything empty,
`CAP_NONE`, not initialized, null state. -/
def sinsp_plugin.new : sinsp_plugin :=
  ⟨CAP_NONE, "", "", "", "", 0, "", false, none, false, [], [], [], [], []⟩

/-- Model of the plugin-supplied C API entry points (`plugin_api`) that the
`sinsp_plugin` member functions call after load time. A `_present` flag models
whether the optional symbol is non-null; functions take the current
`m_state` handle where the C code passes it. `init_fn` returns the plugin
state handle (possibly null) and whether the result code was
`SS_PLUGIN_SUCCESS`; `get_init_schema_sym` is `none` when the symbol is
absent, otherwise the returned schema type and schema string. -/
structure PluginApi where
  init_present : Bool
  init_fn : String → Option Nat × Bool
  get_last_error_fn : Nat → Option String
  get_init_schema_sym : Option (Nat × String)
  get_progress_present : Bool
  get_progress_fn : Option Nat → String × Nat
  event_to_string_present : Bool
  event_to_string_fn : Option Nat → Event → Option String
  list_open_params_present : Bool
  list_open_params_fn : Option Nat → String × Bool
  extract_fields_fn : Option Nat → Event → Nat → Bool
  parse_event_fn : Option Nat → Event → Bool

/-- Modelled from the spec where noted: the loaded library handle
(`plugin_handle_t`) as consumed by `sinsp_plugin::resolve_dylib_symbols` and
`create`. `check_api_version_ok`/`check_symbols_ok` and their error strings
stand for the results of `plugin_check_required_api_version` and
`plugin_check_required_symbols` (plugin_loader.c is not among the provided
sources). The remaining fields model the load-time C API entry points:
`get_name`/`get_description`/`get_contact`/`get_version` are the returned
strings, `caps` is the result of `plugin_get_capabilities`, and each optional
symbol is an `Option` (`none` = null symbol; for `get_fields` `none` models a
returned NULL charbuf). -/
structure PluginHandle where
  check_api_version_ok : Bool
  check_api_version_err : String
  check_symbols_ok : Bool
  check_symbols_err : String
  get_name : String
  get_description : String
  get_contact : String
  get_version : String
  caps : Caps
  get_id : Option Nat
  get_event_source : Option String
  get_fields : Option String
  get_extract_event_sources : Option String
  get_extract_event_types : Option (List Nat)
  get_parse_event_sources : Option String
  get_parse_event_types : Option (List Nat)
deriving DecidableEq, Repr

/-- Model of the accessor `sinsp_plugin::name`. -/
def sinsp_plugin.name (p : sinsp_plugin) : String := p.m_name

/-- Model of the accessor `sinsp_plugin::description`. -/
def sinsp_plugin.description (p : sinsp_plugin) : String := p.m_description

/-- Model of the accessor `sinsp_plugin::contact`. -/
def sinsp_plugin.contact (p : sinsp_plugin) : String := p.m_contact

/-- Model of the accessor `sinsp_plugin::caps`. -/
def sinsp_plugin.caps (p : sinsp_plugin) : Caps := p.m_caps

/-- Model of the accessor `sinsp_plugin::plugin_version`. -/
def sinsp_plugin.plugin_version (p : sinsp_plugin) : String := p.m_plugin_version

/-- Model of the accessor `sinsp_plugin::id`. -/
def sinsp_plugin.id (p : sinsp_plugin) : Nat := p.m_id

/-- Model of the accessor `sinsp_plugin::event_source`. -/
def sinsp_plugin.event_source (p : sinsp_plugin) : String := p.m_event_source

/-- Model of the accessor `sinsp_plugin::fields`. -/
def sinsp_plugin.fields (p : sinsp_plugin) : List filtercheck_field_info := p.m_fields

/-- Model of the accessor `sinsp_plugin::extract_event_sources`. -/
def sinsp_plugin.extract_event_sources (p : sinsp_plugin) : List String :=
  p.m_extract_event_sources

/-- Model of the accessor `sinsp_plugin::parse_event_sources`. -/
def sinsp_plugin.parse_event_sources (p : sinsp_plugin) : List String :=
  p.m_parse_event_sources

/-- Model of the static `sinsp_plugin::is_source_compatible` (plugin.h): an
empty source set is compatible with everything. -/
def sinsp_plugin.is_source_compatible (sources : List String) (source : String) : Bool :=
  sources.isEmpty || sources.contains source

/-- Model of `sinsp_plugin::get_init_schema`: when the symbol is absent the
schema type is `SS_PLUGIN_SCHEMA_NONE` and the schema string empty. -/
def sinsp_plugin.get_init_schema (api : PluginApi) : Nat × String :=
  match api.get_init_schema_sym with
  | some ts => ts
  | none => (SS_PLUGIN_SCHEMA_NONE, "")

/-- Model of `sinsp_plugin::validate_init_config_json_schema`: parse the
schema (must be a JSON object), stub an empty config to `\x7b\x7d`, parse the
config, validate, and report only the top-most validation error. Returns the
(possibly stubbed) config on success, mirroring the by-reference update of
`config`. -/
def sinsp_plugin.validate_init_config_json_schema (pname config schema : String) :
    Except String String :=
  match Json.parse schema with
  | some sj =>
    if sj.isObj = false then
      .error ( "error in plugin " ++ pname ++ ": get_init_schema did not return a json object")
    else
      let config1 := if config.length = 0 then "\x7b\x7d" else config
      match Json.parse config1 with
      | none => .error ( "error in plugin " ++ pname ++ ": init config is not a valid json")
      | some cj =>
        match valijson_validate sj cj with
        | none => .ok config1
        | some (e :: _) =>
          .error ( "error in plugin " ++ pname ++ " init config: In " ++
            String.join e.context ++ ", " ++ e.description)
        | some [] =>
          .error ( "error in plugin " ++ pname ++ " init config: failed parsing with provided schema")
  | none =>
    .error ( "error in plugin " ++ pname ++ ": get_init_schema did not return a json object")

/-- Model of `sinsp_plugin::validate_init_config`: dispatch on the schema type
returned by `get_init_schema`. -/
def sinsp_plugin.validate_init_config (p : sinsp_plugin) (api : PluginApi) (config : String) :
    Except String String :=
  let ts := sinsp_plugin.get_init_schema api
  if ts.2 ≠ "" ∧ ts.1 ≠ SS_PLUGIN_SCHEMA_NONE then
    if ts.1 = SS_PLUGIN_SCHEMA_JSON then
      sinsp_plugin.validate_init_config_json_schema p.m_name config ts.2
    else
      .error ( "error in plugin " ++ p.m_name ++
        ": get_init_schema returned an unknown schema type " ++ toString ts.1)
  else .ok config

/-- Model of `sinsp_plugin::get_last_error`: throws the not-initialized state
error before `m_inited`, and otherwise reads the plugin's last error through
the retained state handle. -/
def sinsp_plugin.get_last_error (p : sinsp_plugin) (api : PluginApi) : Except String String :=
  if p.m_inited = false then
    .error (s_not_init_err ++ ": " ++ p.m_name)
  else
    match p.m_state with
    | some st => .ok (str_from_alloc_charbuf (api.get_last_error_fn st))
    | none => .ok ( "Plugin handle or get_last_error function not defined")

/-- Model of `sinsp_plugin::init`: the at-most-once gate, config validation,
the call into the plugin's `init` entry point, retention of a returned state
handle even on failure, the unconditional `m_inited = true`, and the
`get_last_error`-based error text on failure. The returned triple is (result,
`errstr`, updated plugin). -/
def sinsp_plugin.init (p : sinsp_plugin) (api : PluginApi) (config : String) :
    Except String (Bool × String × sinsp_plugin) :=
  if p.m_inited then .ok (false, s_init_twice_err ++ ": " ++ p.m_name, p)
  else if api.init_present = false then .ok (false, "init api symbol not found", p)
  else
    match sinsp_plugin.validate_init_config p api config with
    | .error e => .error e
    | .ok conf =>
      let r := api.init_fn conf
      let p1 := match r.1 with
        | some st => { p with m_state := some st }
        | none => p
      let p2 := { p1 with m_inited := true }
      if r.2 then .ok (true, "", p2)
      else
        match sinsp_plugin.get_last_error p2 api with
        | .error e => .error e
        | .ok le => .ok (false, "Could not initialize plugin: " ++ le, p2)

/-- Model of `sinsp_plugin::as_scap_source`: requires `m_inited` and the
sourcing capability, then fills a `scap_source_plugin` from the members. -/
def sinsp_plugin.as_scap_source (p : sinsp_plugin) : Except String scap_source_plugin :=
  if p.m_inited = false then .error (s_not_init_err ++ ": " ++ p.m_name)
  else if p.m_caps.sourcing = false then
    .error ( "Can\x27t create scap_source_plugin from a plugin without CAP_SOURCING capability.")
  else .ok ⟨p.m_state, p.m_name, p.m_id⟩

/-- Model of `sinsp_plugin::get_progress`: requires `m_inited`; yields
`("", 0)` when the symbol is absent or no capture handle is open, else the
plugin's text and percentage. -/
def sinsp_plugin.get_progress (p : sinsp_plugin) (api : PluginApi) :
    Except String (String × Nat) :=
  if p.m_inited = false then .error (s_not_init_err ++ ": " ++ p.m_name)
  else if api.get_progress_present = false ∨ p.m_scap_handle = false then .ok ( "", 0)
  else .ok (api.get_progress_fn p.m_state)

/-- ASCII printability as tested by `std::isprint` on the event payload. -/
def isprint_byte (b : Nat) : Bool := decide (32 ≤ b ∧ b ≤ 126)

/-- Byte buffer rendered as a string (the `ret.append((char*) data, ...)` of
`event_to_string`). -/
def bytesToString (bs : List Nat) : String := String.mk (bs.map Char.ofNat)

/-- Model of `sinsp_plugin::event_to_string`: requires `m_inited`; falls back
to a `datalen=... data=...` rendering (with `<binary>` for non-printable
payloads and `...` past 50 bytes) when the plugin yields no string. -/
def sinsp_plugin.event_to_string (p : sinsp_plugin) (api : PluginApi) (evt : Event) :
    Except String String :=
  if p.m_inited = false then .error (s_not_init_err ++ ": " ++ p.m_name)
  else
    let datalen := evt.data.length
    let ret := if p.m_state.isSome && api.event_to_string_present then
        str_from_alloc_charbuf (api.event_to_string_fn p.m_state evt)
      else ""
    if ret.isEmpty then
      let hdr := "datalen=" ++ toString datalen ++ " data="
      let shown := evt.data.take (min datalen 50)
      if shown.all isprint_byte then
        .ok (hdr ++ bytesToString shown ++ (if datalen > 50 then "..." else ""))
      else .ok (hdr ++ "<binary>")
    else .ok ret

/-- The per-entry loop of `sinsp_plugin::list_open_params`: an entry with an
empty (or absent) `value` member is rejected. -/
def collect_open_params (pname : String) : List Json → Except String (List open_param)
  | [] => .ok []
  | j :: rest =>
    let v := (j.getMem ( "value")).asStringD
    if v = "" then
      .error ( "error in plugin " ++ pname ++ ": list_open_params has entry with no value")
    else
      match collect_open_params pname rest with
      | .error e => .error e
      | .ok l =>
        .ok (⟨v, (j.getMem ( "desc")).asStringD, (j.getMem ( "separator")).asStringD⟩ :: l)

/-- Model of `sinsp_plugin::list_open_params`: requires `m_inited`; an absent
symbol or null state yields an empty list; a plugin error is reported with
`get_last_error`; a non-empty response must be a JSON array of entries with
non-empty `value`. -/
def sinsp_plugin.list_open_params (p : sinsp_plugin) (api : PluginApi) :
    Except String (List open_param) :=
  if p.m_inited = false then .error (s_not_init_err ++ ": " ++ p.m_name)
  else if p.m_state.isSome && api.list_open_params_present then
    let r := api.list_open_params_fn p.m_state
    if r.2 = false then
      match sinsp_plugin.get_last_error p api with
      | .error e => .error e
      | .ok le =>
        .error ( "error in plugin " ++ p.m_name ++ ": list_open_params has error " ++ le)
    else if r.1.length > 0 then
      match Json.parse r.1 with
      | some (Json.arr js) => collect_open_params p.m_name js
      | _ =>
        .error ( "error in plugin " ++ p.m_name ++ ": list_open_params returned a non-array JSON")
    else .ok []
  else .ok []

/-- Model of `sinsp_plugin::extract_fields`: requires `m_inited`, then calls
the plugin's `extract_fields` entry point and compares against
`SS_PLUGIN_SUCCESS`. -/
def sinsp_plugin.extract_fields (p : sinsp_plugin) (api : PluginApi) (evt : Event)
    (num_fields : Nat) : Except String Bool :=
  if p.m_inited = false then .error (s_not_init_err ++ ": " ++ p.m_name)
  else .ok (api.extract_fields_fn p.m_state evt num_fields)

/-- Model of `sinsp_plugin::parse_event`: requires `m_inited`, then calls the
plugin's `parse_event` entry point and compares against `SS_PLUGIN_SUCCESS`. -/
def sinsp_plugin.parse_event (p : sinsp_plugin) (api : PluginApi) (evt : Event) :
    Except String Bool :=
  if p.m_inited = false then .error (s_not_init_err ++ ": " ++ p.m_name)
  else .ok (api.parse_event_fn p.m_state evt)

/-- The `isRequired` block of `sinsp_plugin::resolve_dylib_field_arg`. -/
def sinsp_plugin.rdfa_isRequired (pname : String) (root : Json)
    (tf : filtercheck_field_info) : Except String filtercheck_field_info :=
  let v := root.getMem ( "isRequired")
  if v.isNull then .ok tf
  else if v.isBool = false then
    .error ( "error in plugin " ++ pname ++ ": field " ++ tf.m_name ++
      " isRequired property is not boolean")
  else if v.asBool then
    .ok { tf with m_flags := { tf.m_flags with arg_required := true } }
  else .ok tf

/-- The `isIndex` block of `sinsp_plugin::resolve_dylib_field_arg`; setting
`EPF_ARG_INDEX` also sets `EPF_ARG_ALLOWED` implicitly. -/
def sinsp_plugin.rdfa_isIndex (pname : String) (root : Json)
    (tf : filtercheck_field_info) : Except String filtercheck_field_info :=
  let v := root.getMem ( "isIndex")
  if v.isNull then .ok tf
  else if v.isBool = false then
    .error ( "error in plugin " ++ pname ++ ": field " ++ tf.m_name ++
      " isIndex property is not boolean")
  else if v.asBool then
    .ok { tf with m_flags := { tf.m_flags with arg_index := true, arg_allowed := true } }
  else .ok tf

/-- The `isKey` block of `sinsp_plugin::resolve_dylib_field_arg`; setting
`EPF_ARG_KEY` also sets `EPF_ARG_ALLOWED` implicitly. -/
def sinsp_plugin.rdfa_isKey (pname : String) (root : Json)
    (tf : filtercheck_field_info) : Except String filtercheck_field_info :=
  let v := root.getMem ( "isKey")
  if v.isNull then .ok tf
  else if v.isBool = false then
    .error ( "error in plugin " ++ pname ++ ": field " ++ tf.m_name ++
      " isKey property is not boolean")
  else if v.asBool then
    .ok { tf with m_flags := { tf.m_flags with arg_key := true, arg_allowed := true } }
  else .ok tf

/-- Model of `sinsp_plugin::resolve_dylib_field_arg`: process the `arg` object
of a field descriptor and enforce that `isRequired` comes with `isIndex` or
`isKey`. -/
def sinsp_plugin.resolve_dylib_field_arg (pname : String) (root : Json)
    (tf : filtercheck_field_info) : Except String filtercheck_field_info :=
  if root.isNull then .ok tf
  else
    match sinsp_plugin.rdfa_isRequired pname root tf with
    | .error e => .error e
    | .ok tf1 =>
      match sinsp_plugin.rdfa_isIndex pname root tf1 with
      | .error e => .error e
      | .ok tf2 =>
        match sinsp_plugin.rdfa_isKey pname root tf2 with
        | .error e => .error e
        | .ok tf3 =>
          if tf3.m_flags.arg_required && !(tf3.m_flags.arg_index || tf3.m_flags.arg_key) then
            .error ( "error in plugin " ++ pname ++ ": field " ++ tf3.m_name ++
              " arg has isRequired true, but none of isKey nor isIndex is true")
          else .ok tf3

/-- The per-element loop over the sources JSON array in
`sinsp_plugin::resolve_dylib_sources_codes`: each element must be convertible
to a string, and non-empty strings are inserted into the source set. -/
def collect_sources (pname symsources : String) :
    List Json → List String → Except String (List String)
  | [], acc => .ok acc
  | j :: rest, acc =>
    if j.isConvertibleToString = false then
      .error ( "error in plugin " ++ pname ++ ": \x27" ++ symsources ++
        "\x27 did not return a json array")
    else
      let src := j.asStringD
      collect_sources pname symsources rest (if src ≠ "" then insertStr acc src else acc)

/-- Model of `sinsp_plugin::resolve_dylib_sources_codes` (shared by the field
extraction and event parsing capabilities): resolve the advertised source-name
set (adding the plugin's own event source when it has the sourcing capability)
and the advertised event-code set, defaulting an empty code set to all
syscall events when the source set is syscall-compatible, else to the plugin
event code. `get_sources = none` models a null symbol; `get_codes = none`
models a null symbol or a null returned array. -/
def sinsp_plugin.resolve_dylib_sources_codes (pname : String) (caps : Caps)
    (event_source : String) (symsources : String) (get_sources : Option String)
    (get_codes : Option (List Nat)) : Except String (List String × List Nat) :=
  let step1 : Except String (List String) :=
    match get_sources with
    | none => .ok []
    | some esources =>
      if esources.isEmpty then .ok []
      else
        match Json.parse esources with
        | some (Json.arr js) => collect_sources pname symsources js []
        | _ =>
          .error ( "error in plugin " ++ pname ++ ": \x27" ++ symsources ++
            "\x27 did not return a json array")
  match step1 with
  | .error e => .error e
  | .ok srcs0 =>
    let sources := if caps.sourcing = true ∧ event_source ≠ "" then
        insertStr srcs0 event_source
      else srcs0
    let codes0 := match get_codes with
      | none => []
      | some ts => ts.foldl insertNat []
    let codes := if codes0.isEmpty then
        (if sinsp_plugin.is_source_compatible sources sinsp_syscall_event_source_name then
          all_event_set
        else [PPME_PLUGINEVENT_E])
      else codes0
    .ok (sources, codes)

/-- The `properties` flag dispatch of `resolve_dylib_symbols`: `hidden`,
`info` and `conversation` set flags, unrecognized values are ignored. -/
def apply_property (tf : filtercheck_field_info) (s : String) : filtercheck_field_info :=
  if s = "hidden" then { tf with m_flags := { tf.m_flags with table_only := true } }
  else if s = "info" then { tf with m_flags := { tf.m_flags with field_info := true } }
  else if s = "conversation" then { tf with m_flags := { tf.m_flags with conversation := true } }
  else tf

/-- The per-element loop over a field's `properties` array: every element must
be a string. -/
def collect_properties (pname fname : String) :
    List Json → filtercheck_field_info → Except String filtercheck_field_info
  | [], tf => .ok tf
  | j :: rest, tf =>
    match j with
    | Json.str s => collect_properties pname fname rest (apply_property tf s)
    | _ =>
      .error ( "error in plugin " ++ pname ++ ": field " ++ fname ++
        " properties value is not string ")

/-- The `properties` block of `resolve_dylib_symbols`: absent is fine, a
non-array is rejected. -/
def sinsp_plugin.rdfa_properties (pname fname : String) (props : Json)
    (tf : filtercheck_field_info) : Except String filtercheck_field_info :=
  match props with
  | Json.null => .ok tf
  | Json.arr js => collect_properties pname fname js tf
  | _ =>
    .error ( "error in plugin " ++ pname ++ ": field " ++ fname ++
      " properties property is not array ")

/-- One iteration of the field-descriptor loop in
`sinsp_plugin::resolve_dylib_symbols` (lines building one
`filtercheck_field_info` from one JSON array element). -/
def sinsp_plugin.parse_field_json_entry (pname : String) (j : Json) :
    Except String filtercheck_field_info :=
  let ftype := (j.getMem ( "type")).asStringD
  if ftype = "" then
    .error ( "error in plugin " ++ pname ++ ": field JSON entry has no type")
  else
    let fname := (j.getMem ( "name")).asStringD
    if fname = "" then
      .error ( "error in plugin " ++ pname ++ ": field JSON entry has no name")
    else
      let fdisplay := (j.getMem ( "display")).asStringD
      let fdesc := (j.getMem ( "desc")).asStringD
      if fdesc = "" then
        .error ( "error in plugin " ++ pname ++ ": field JSON entry has no desc")
      else
        match m_pt_lut.lookup ftype with
        | none => .error ( "error in plugin " ++ pname ++ ": invalid field type " ++ ftype)
        | some pt =>
          let tf : filtercheck_field_info :=
            ⟨fname, fdisplay, fdesc, pt, ppm_print_format.PF_DEC, EPF_NONE⟩
          let jvIsList := j.getMem ( "isList")
          let step : Except String filtercheck_field_info :=
            if jvIsList.isNull then .ok tf
            else if jvIsList.isBool = false then
              .error ( "error in plugin " ++ pname ++ ": field " ++ fname ++
                " isList property is not boolean ")
            else if jvIsList.asBool then
              .ok { tf with m_flags := { tf.m_flags with is_list := true } }
            else .ok tf
          match step with
          | .error e => .error e
          | .ok tf1 =>
            match sinsp_plugin.resolve_dylib_field_arg pname (j.getMem ( "arg")) tf1 with
            | .error e => .error e
            | .ok tf2 => sinsp_plugin.rdfa_properties pname fname (j.getMem ( "properties")) tf2

/-- The whole field-descriptor loop of `resolve_dylib_symbols` over the parsed
`get_fields` array. -/
def sinsp_plugin.parse_fields_json (pname : String) :
    List Json → Except String (List filtercheck_field_info)
  | [] => .ok []
  | j :: rest =>
    match sinsp_plugin.parse_field_json_entry pname j with
    | .error e => .error e
    | .ok tf =>
      match sinsp_plugin.parse_fields_json pname rest with
      | .error e => .error e
      | .ok tfs => .ok (tf :: tfs)

/-- The `CAP_EXTRACTION` block of `sinsp_plugin::resolve_dylib_symbols`:
`get_fields` must return a JSON array of valid field descriptors, then the
extract source/code sets are resolved. -/
def sinsp_plugin.resolve_extraction (p : sinsp_plugin) (h : PluginHandle) :
    Except String sinsp_plugin :=
  match h.get_fields with
  | none => .error ( "error in plugin " ++ p.m_name ++ ": get_fields returned a null string")
  | some json =>
    match Json.parse json with
    | some (Json.arr js) =>
      match sinsp_plugin.parse_fields_json p.m_name js with
      | .error e => .error e
      | .ok fs =>
        match sinsp_plugin.resolve_dylib_sources_codes p.m_name p.m_caps p.m_event_source
            ( "get_extract_event_sources") h.get_extract_event_sources
            h.get_extract_event_types with
        | .error e => .error e
        | .ok sc =>
          .ok { p with
                m_fields := fs
                m_extract_event_sources := sc.fst
                m_extract_event_codes := sc.snd }
    | _ => .error ( "error in plugin " ++ p.m_name ++ ": get_fields returned an invalid JSON")

/-- The `CAP_PARSING` block of `sinsp_plugin::resolve_dylib_symbols`. -/
def sinsp_plugin.resolve_parsing (p : sinsp_plugin) (h : PluginHandle) :
    Except String sinsp_plugin :=
  match sinsp_plugin.resolve_dylib_sources_codes p.m_name p.m_caps p.m_event_source
      ( "get_parse_event_sources") h.get_parse_event_sources h.get_parse_event_types with
  | .error e => .error e
  | .ok sc =>
    .ok { p with m_parse_event_sources := sc.fst, m_parse_event_codes := sc.snd }

/-- Model of `sinsp_plugin::resolve_dylib_symbols`: API-version and symbol
checks, descriptor metadata, version validity, capability bits, the sourcing
id/event-source pair, and the extraction/parsing follow-ups. The returned
triple is (result, `errstr`, updated plugin); descriptor violations raise
exceptions, mirroring the C++ `throw`s. -/
def sinsp_plugin.resolve_dylib_symbols (p : sinsp_plugin) (h : PluginHandle) :
    Except String (Bool × String × sinsp_plugin) :=
  if h.check_api_version_ok = false then .ok (false, h.check_api_version_err, p)
  else if h.check_symbols_ok = false then .ok (false, h.check_symbols_err, p)
  else
    let p1 := { p with
                m_name := h.get_name
                m_description := h.get_description
                m_contact := h.get_contact }
    if sinsp_version_valid h.get_version = false then
      .ok (false, "Plugin provided an invalid version string: \x27" ++ h.get_version ++ "\x27", p1)
    else
      let p2 := { p1 with m_plugin_version := h.get_version, m_caps := h.caps }
      let p3 := if p2.m_caps.sourcing then
          match h.get_id, h.get_event_source with
          | some plid, some es =>
            if plid ≠ 0 then { p2 with m_id := plid, m_event_source := es }
            else { p2 with m_id := 0, m_event_source := "" }
          | _, _ => { p2 with m_id := 0, m_event_source := "" }
        else p2
      match (if p3.m_caps.extraction then sinsp_plugin.resolve_extraction p3 h else .ok p3) with
      | .error e => .error e
      | .ok p4 =>
        match (if p4.m_caps.parsing then sinsp_plugin.resolve_parsing p4 h else .ok p4) with
        | .error e => .error e
        | .ok p5 => .ok (true, "", p5)

/-- Model of `sinsp_plugin::create`: `load_result = none` models a failed
`plugin_load`/`plugin_load_api` with `loadererr` as its error text (the loader
lives in plugin_loader.c, outside the provided sources); otherwise a fresh
plugin object resolves its symbols, and the shared_ptr is dropped (null
returned) with `errstr` set when that fails. The result pairs the returned
plugin (null = `none`) with `errstr`; exceptions from descriptor parsing
propagate. -/
def sinsp_plugin.create (load_result : Option PluginHandle) (loadererr : String) :
    Except String (Option sinsp_plugin × String) :=
  match load_result with
  | none => .ok (none, loadererr)
  | some h =>
    match sinsp_plugin.resolve_dylib_symbols sinsp_plugin.new h with
    | .error e => .error e
    | .ok r =>
      match r with
      | (false, errstr, _) => .ok (none, errstr)
      | (true, _, p) => .ok (some p, "")

/-- `hay` mentions `sub`: the characters of `sub` occur contiguously in
`hay`. -/
def strMentions (hay sub : String) : Prop := sub.toList <:+: hay.toList

theorem strToList_append (a b : String) : (a ++ b).toList = a.toList ++ b.toList := rfl

theorem strMentions_mid (a sub b : String) : strMentions (a ++ sub ++ b) sub :=
  ⟨a.toList, b.toList, by simp [strToList_append]⟩

theorem mem_insertStr_self (l : List String) (x : String) : x ∈ insertStr l x := by
  unfold insertStr
  split
  · assumption
  · simp

theorem mem_insertStr_of_mem (l : List String) (x y : String) (h : x ∈ l) :
    x ∈ insertStr l y := by
  unfold insertStr
  split
  · assumption
  · simp [h]

theorem strMentions_self (s : String) : strMentions s s := ⟨[], [], by simp⟩

theorem strMentions_append_right (s t sub : String) (h : strMentions s sub) :
    strMentions (s ++ t) sub :=
  List.IsInfix.trans h ⟨[], t.toList, by simp [strToList_append]⟩

theorem strMentions_append_left (s t sub : String) (h : strMentions t sub) :
    strMentions (s ++ t) sub :=
  List.IsInfix.trans h ⟨s.toList, [], by simp [strToList_append]⟩

theorem init_ok_shape (p : sinsp_plugin) (api : PluginApi) (config : String)
    (b : Bool) (e : String) (p' : sinsp_plugin)
    (hpi : p.m_inited = false) (hpres : api.init_present = true)
    (hres : sinsp_plugin.init p api config = .ok (b, e, p')) :
    p'.m_inited = true ∧ p'.m_name = p.m_name := by
  unfold sinsp_plugin.init at hres
  rw [if_neg (by simp [hpi]), if_neg (by simp [hpres])] at hres
  split at hres
  next e' he => exact absurd hres (by simp)
  next conf hv =>
    simp only [] at hres
    split at hres
    next hr2 =>
      injection hres with h
      simp only [Prod.mk.injEq] at h
      obtain ⟨hb, he, hp⟩ := h
      rw [← hp]
      refine ⟨rfl, ?_⟩
      split <;> rfl
    next hr2 =>
      split at hres
      next e' hle => exact absurd hres (by simp)
      next le hle =>
        injection hres with h
        simp only [Prod.mk.injEq] at h
        obtain ⟨hb, he, hp⟩ := h
        rw [← hp]
        refine ⟨rfl, ?_⟩
        split <;> rfl

theorem init_ok_true_requires (p : sinsp_plugin) (api : PluginApi) (config : String)
    (e : String) (p' : sinsp_plugin)
    (hres : sinsp_plugin.init p api config = .ok (true, e, p')) :
    p.m_inited = false ∧ api.init_present = true := by
  cases hpi : p.m_inited with
  | true =>
    exfalso
    unfold sinsp_plugin.init at hres
    rw [if_pos (by simp [hpi])] at hres
    simp at hres
  | false =>
    cases hpres : api.init_present with
    | false =>
      exfalso
      unfold sinsp_plugin.init at hres
      rw [if_neg (by simp [hpi]), if_pos (by simp [hpres])] at hres
      simp at hres
    | true => exact ⟨rfl, rfl⟩

/-- Claim C1: for a loaded plugin whose first `init` with config `{}` succeeds,
a second `init` call returns failure, with `errstr` equal to the
initialized-twice state error, which mentions "initialized twice" and names
the plugin. -/
theorem claim_C1 (p : sinsp_plugin) (api : PluginApi) (e1 : String) (p' : sinsp_plugin)
    (hres : sinsp_plugin.init p api ( "\x7b\x7d") = .ok (true, e1, p')) :
    sinsp_plugin.init p' api ( "\x7b\x7d") =
      .ok (false, s_init_twice_err ++ ": " ++ p.m_name, p') ∧
    strMentions (s_init_twice_err ++ ": " ++ p.m_name) ( "initialized twice") ∧
    strMentions (s_init_twice_err ++ ": " ++ p.m_name) p.m_name := by
  obtain ⟨hpi, hpres⟩ := init_ok_true_requires p api _ e1 p' hres
  obtain ⟨hi', hn'⟩ := init_ok_shape p api _ true e1 p' hpi hpres hres
  refine ⟨?_, ?_, ?_⟩
  · unfold sinsp_plugin.init
    rw [if_pos (by simp [hi']), hn']
  · have h1 : s_init_twice_err = "plugin has been " ++ "initialized twice" := rfl
    rw [h1]
    exact strMentions_append_right _ _ _
      (strMentions_append_right _ _ _
        (strMentions_append_left _ _ _ (strMentions_self _)))
  · exact strMentions_append_left _ _ _ (strMentions_self _)

/-- Fixture: a plugin API whose `init` entry point succeeds and returns state
handle 1. -/
def fx_api : PluginApi :=
  ⟨true, fun _ => (some 1, true), fun _ => some ( "boom"), none,
   false, fun _ => ( "", 0), false, fun _ _ => none, false, fun _ => ( "", true),
   fun _ _ _ => true, fun _ _ => true⟩

/-- Fixture: a freshly created plugin named `myplugin`. -/
def fx_p : sinsp_plugin := { sinsp_plugin.new with m_name := "myplugin" }

/-- Fixture: `fx_p` after a successful `init` against `fx_api`. -/
def fx_p1 : sinsp_plugin := { fx_p with m_state := some 1, m_inited := true }

theorem claim_C1_witness :
    sinsp_plugin.init fx_p1 fx_api ( "\x7b\x7d") =
      .ok (false, s_init_twice_err ++ ": " ++ fx_p.m_name, fx_p1) ∧
    strMentions (s_init_twice_err ++ ": " ++ fx_p.m_name) ( "initialized twice") ∧
    strMentions (s_init_twice_err ++ ": " ++ fx_p.m_name) fx_p.m_name :=
  claim_C1 fx_p fx_api ( "") fx_p1 (by rfl)

theorem init_eval (p : sinsp_plugin) (api : PluginApi) (config conf : String)
    (hpi : p.m_inited = false) (hpres : api.init_present = true)
    (hv : sinsp_plugin.validate_init_config p api config = .ok conf) :
    sinsp_plugin.init p api config =
      (let r := api.init_fn conf
       let p2 : sinsp_plugin :=
         { (match r.1 with
            | some st => { p with m_state := some st }
            | none => p) with m_inited := true }
       if r.2 then .ok (true, "", p2)
       else
         match sinsp_plugin.get_last_error p2 api with
         | .error e => .error e
         | .ok le => .ok (false, "Could not initialize plugin: " ++ le, p2)) := by
  unfold sinsp_plugin.init
  rw [if_neg (by simp [hpi]), if_neg (by simp [hpres]), hv]

theorem init_inited_twice (p : sinsp_plugin) (api : PluginApi) (config : String)
    (h : p.m_inited = true) :
    sinsp_plugin.init p api config = .ok (false, s_init_twice_err ++ ": " ++ p.m_name, p) := by
  unfold sinsp_plugin.init
  rw [if_pos (by simp [h])]

theorem ops_ok_of_inited (p : sinsp_plugin) (api : PluginApi) (evt : Event) (n : Nat)
    (h : p.m_inited = true) :
    (∃ v, sinsp_plugin.get_last_error p api = .ok v) ∧
    (∃ v, sinsp_plugin.parse_event p api evt = .ok v) ∧
    (∃ v, sinsp_plugin.extract_fields p api evt n = .ok v) := by
  refine ⟨?_,
    ⟨api.parse_event_fn p.m_state evt, by simp [sinsp_plugin.parse_event, h]⟩,
    ⟨api.extract_fields_fn p.m_state evt n, by simp [sinsp_plugin.extract_fields, h]⟩⟩
  unfold sinsp_plugin.get_last_error
  rw [if_neg (by simp [h])]
  rcases hps : p.m_state with _ | st <;> exact ⟨_, rfl⟩

/-- Claim C2 (amended): if the plugin's `init` entry point returns failure
together with a non-null state handle, the host retains the handle in
`m_state`, fails the call with an error text that appends the plugin's
`get_last_error` string, and marks the plugin initialized even though `init`
failed (the original claim's final clause, "the plugin enters the Initialized
state only on success", does not hold). -/
theorem claim_C2 (p : sinsp_plugin) (api : PluginApi) (config conf : String) (st : Nat)
    (hpi : p.m_inited = false) (hpres : api.init_present = true)
    (hv : sinsp_plugin.validate_init_config p api config = .ok conf)
    (hr : api.init_fn conf = (some st, false)) :
    sinsp_plugin.init p api config =
      .ok (false,
        "Could not initialize plugin: " ++ str_from_alloc_charbuf (api.get_last_error_fn st),
        { p with m_state := some st, m_inited := true }) ∧
    strMentions
      ( "Could not initialize plugin: " ++ str_from_alloc_charbuf (api.get_last_error_fn st))
      (str_from_alloc_charbuf (api.get_last_error_fn st)) := by
  constructor
  · rw [init_eval p api config conf hpi hpres hv]
    simp [hr, sinsp_plugin.get_last_error]
  · exact strMentions_append_left _ _ _ (strMentions_self _)

/-- Fixture: a plugin API whose `init` entry point fails but returns state
handle 7, with last error "boom". -/
def fx_api_fail : PluginApi := { fx_api with init_fn := fun _ => (some 7, false) }

/-- Fixture: `fx_p` after the failed `init` against `fx_api_fail`. -/
def fx_p7 : sinsp_plugin := { fx_p with m_state := some 7, m_inited := true }

theorem claim_C2_counterexample :
    sinsp_plugin.init fx_p fx_api_fail ( "\x7b\x7d") =
      .ok (false, "Could not initialize plugin: boom", fx_p7) ∧
    fx_p7.m_inited = true ∧
    sinsp_plugin.init fx_p7 fx_api_fail ( "\x7b\x7d") =
      .ok (false, s_init_twice_err ++ ": " ++ fx_p.m_name, fx_p7) :=
  ⟨rfl, rfl, rfl⟩

theorem claim_C2_witness :
    sinsp_plugin.init fx_p fx_api_fail ( "\x7b\x7d") =
      .ok (false,
        "Could not initialize plugin: " ++ str_from_alloc_charbuf (fx_api_fail.get_last_error_fn 7),
        { fx_p with m_state := some 7, m_inited := true }) ∧
    strMentions
      ( "Could not initialize plugin: " ++ str_from_alloc_charbuf (fx_api_fail.get_last_error_fn 7))
      (str_from_alloc_charbuf (fx_api_fail.get_last_error_fn 7)) :=
  claim_C2 fx_p fx_api_fail ( "\x7b\x7d") ( "\x7b\x7d") 7 rfl rfl (by rfl) (by rfl)

/-- Claim C10: once the plugin's `init` entry point has been called, the
plugin is marked initialized even when the entry point returned failure: the
failed `init` returns a plugin with `m_inited = true`, a subsequent `init`
fails with the initialized-twice error rather than allowing a retry, and
`get_last_error` / `parse_event` / `extract_fields` no longer raise the
not-initialized state error. -/
theorem claim_C10 (p : sinsp_plugin) (api : PluginApi) (config config2 conf : String)
    (stOpt : Option Nat) (evt : Event) (n : Nat)
    (hpi : p.m_inited = false) (hpres : api.init_present = true)
    (hv : sinsp_plugin.validate_init_config p api config = .ok conf)
    (hr : api.init_fn conf = (stOpt, false)) :
    ∃ e p',
      sinsp_plugin.init p api config = .ok (false, e, p') ∧
      p'.m_inited = true ∧
      p'.m_name = p.m_name ∧
      sinsp_plugin.init p' api config2 =
        .ok (false, s_init_twice_err ++ ": " ++ p.m_name, p') ∧
      (∃ v, sinsp_plugin.get_last_error p' api = .ok v) ∧
      (∃ v, sinsp_plugin.parse_event p' api evt = .ok v) ∧
      (∃ v, sinsp_plugin.extract_fields p' api evt n = .ok v) := by
  have hinit := init_eval p api config conf hpi hpres hv
  rw [hr] at hinit
  cases stOpt with
  | some st =>
    simp [sinsp_plugin.get_last_error] at hinit
    refine ⟨_, _, hinit, rfl, ?_, ?_, ?_⟩
    · rfl
    · exact init_inited_twice _ api config2 rfl
    · exact ops_ok_of_inited _ api evt n rfl
  | none =>
    rcases hps : p.m_state with _ | st0
    · simp [sinsp_plugin.get_last_error, hps] at hinit
      refine ⟨_, _, hinit, rfl, ?_, ?_, ?_⟩
      · rfl
      · exact init_inited_twice _ api config2 rfl
      · exact ops_ok_of_inited _ api evt n rfl
    · simp [sinsp_plugin.get_last_error, hps] at hinit
      refine ⟨_, _, hinit, rfl, ?_, ?_, ?_⟩
      · rfl
      · exact init_inited_twice _ api config2 rfl
      · exact ops_ok_of_inited _ api evt n rfl

theorem claim_C10_witness :
    ∃ e p',
      sinsp_plugin.init fx_p fx_api_fail ( "\x7b\x7d") = .ok (false, e, p') ∧
      p'.m_inited = true ∧
      p'.m_name = fx_p.m_name ∧
      sinsp_plugin.init p' fx_api_fail ( "\x7b\x7d") =
        .ok (false, s_init_twice_err ++ ": " ++ fx_p.m_name, p') ∧
      (∃ v, sinsp_plugin.get_last_error p' fx_api_fail = .ok v) ∧
      (∃ v, sinsp_plugin.parse_event p' fx_api_fail ⟨[], 0, 0, ""⟩ = .ok v) ∧
      (∃ v, sinsp_plugin.extract_fields p' fx_api_fail ⟨[], 0, 0, ""⟩ 1 = .ok v) :=
  claim_C10 fx_p fx_api_fail ( "\x7b\x7d") ( "\x7b\x7d") ( "\x7b\x7d") (some 7)
    ⟨[], 0, 0, ""⟩ 1 rfl rfl (by rfl) (by rfl)

/-- Claim C3: while a plugin is not in the initialized state, every capability
operation (`get_last_error`, `as_scap_source`, `get_progress`,
`event_to_string`, `list_open_params`, `extract_fields`, `parse_event`) fails
with the not-initialized state error naming the plugin, while the metadata
accessors (`name`, `description`, `plugin_version`, `caps`) remain
available. -/
theorem claim_C3 (p : sinsp_plugin) (api : PluginApi) (evt : Event) (n : Nat)
    (h : p.m_inited = false) :
    sinsp_plugin.get_last_error p api = .error (s_not_init_err ++ ": " ++ p.m_name) ∧
    sinsp_plugin.as_scap_source p = .error (s_not_init_err ++ ": " ++ p.m_name) ∧
    sinsp_plugin.get_progress p api = .error (s_not_init_err ++ ": " ++ p.m_name) ∧
    sinsp_plugin.event_to_string p api evt = .error (s_not_init_err ++ ": " ++ p.m_name) ∧
    sinsp_plugin.list_open_params p api = .error (s_not_init_err ++ ": " ++ p.m_name) ∧
    sinsp_plugin.extract_fields p api evt n = .error (s_not_init_err ++ ": " ++ p.m_name) ∧
    sinsp_plugin.parse_event p api evt = .error (s_not_init_err ++ ": " ++ p.m_name) ∧
    sinsp_plugin.name p = p.m_name ∧
    sinsp_plugin.description p = p.m_description ∧
    sinsp_plugin.plugin_version p = p.m_plugin_version ∧
    sinsp_plugin.caps p = p.m_caps := by
  refine ⟨?_, ?_, ?_, ?_, ?_, ?_, ?_, rfl, rfl, rfl, rfl⟩ <;>
    simp [sinsp_plugin.get_last_error, sinsp_plugin.as_scap_source,
      sinsp_plugin.get_progress, sinsp_plugin.event_to_string,
      sinsp_plugin.list_open_params, sinsp_plugin.extract_fields,
      sinsp_plugin.parse_event, h]

/-- Fixture: an event with an empty payload. -/
def fx_evt : Event := ⟨[], 0, 0, ""⟩

theorem claim_C3_witness :
    sinsp_plugin.get_last_error fx_p fx_api = .error (s_not_init_err ++ ": " ++ fx_p.m_name) ∧
    sinsp_plugin.as_scap_source fx_p = .error (s_not_init_err ++ ": " ++ fx_p.m_name) ∧
    sinsp_plugin.get_progress fx_p fx_api = .error (s_not_init_err ++ ": " ++ fx_p.m_name) ∧
    sinsp_plugin.event_to_string fx_p fx_api fx_evt =
      .error (s_not_init_err ++ ": " ++ fx_p.m_name) ∧
    sinsp_plugin.list_open_params fx_p fx_api = .error (s_not_init_err ++ ": " ++ fx_p.m_name) ∧
    sinsp_plugin.extract_fields fx_p fx_api fx_evt 1 =
      .error (s_not_init_err ++ ": " ++ fx_p.m_name) ∧
    sinsp_plugin.parse_event fx_p fx_api fx_evt =
      .error (s_not_init_err ++ ": " ++ fx_p.m_name) ∧
    sinsp_plugin.name fx_p = fx_p.m_name ∧
    sinsp_plugin.description fx_p = fx_p.m_description ∧
    sinsp_plugin.plugin_version fx_p = fx_p.m_plugin_version ∧
    sinsp_plugin.caps fx_p = fx_p.m_caps :=
  claim_C3 fx_p fx_api fx_evt 1 rfl

theorem mentions_plugin_and_field (a pn b f t : String) :
    strMentions (a ++ pn ++ b ++ f ++ t) pn ∧ strMentions (a ++ pn ++ b ++ f ++ t) f :=
  ⟨strMentions_append_right _ _ _ (strMentions_append_right _ _ _
      (strMentions_append_right _ _ _ (strMentions_append_left _ _ _ (strMentions_self _)))),
   strMentions_append_right _ _ _ (strMentions_append_left _ _ _ (strMentions_self _))⟩

theorem rdfa_isRequired_ok (pn : String) (root : Json) (tf tf' : filtercheck_field_info)
    (h : sinsp_plugin.rdfa_isRequired pn root tf = .ok tf') :
    tf' = tf ∨ tf' = { tf with m_flags := { tf.m_flags with arg_required := true } } := by
  simp only [sinsp_plugin.rdfa_isRequired] at h
  split at h
  · exact Or.inl (by injection h with h'; exact h'.symm)
  · split at h
    · exact absurd h (by simp)
    · split at h
      · exact Or.inr (by injection h with h'; exact h'.symm)
      · exact Or.inl (by injection h with h'; exact h'.symm)

theorem rdfa_isIndex_ok (pn : String) (root : Json) (tf tf' : filtercheck_field_info)
    (h : sinsp_plugin.rdfa_isIndex pn root tf = .ok tf') :
    tf' = tf ∨
    tf' = { tf with m_flags := { tf.m_flags with arg_index := true, arg_allowed := true } } := by
  simp only [sinsp_plugin.rdfa_isIndex] at h
  split at h
  · exact Or.inl (by injection h with h'; exact h'.symm)
  · split at h
    · exact absurd h (by simp)
    · split at h
      · exact Or.inr (by injection h with h'; exact h'.symm)
      · exact Or.inl (by injection h with h'; exact h'.symm)

theorem rdfa_isKey_ok (pn : String) (root : Json) (tf tf' : filtercheck_field_info)
    (h : sinsp_plugin.rdfa_isKey pn root tf = .ok tf') :
    tf' = tf ∨
    tf' = { tf with m_flags := { tf.m_flags with arg_key := true, arg_allowed := true } } := by
  simp only [sinsp_plugin.rdfa_isKey] at h
  split at h
  · exact Or.inl (by injection h with h'; exact h'.symm)
  · split at h
    · exact absurd h (by simp)
    · split at h
      · exact Or.inr (by injection h with h'; exact h'.symm)
      · exact Or.inl (by injection h with h'; exact h'.symm)

theorem rdfa_isRequired_true (pn : String) (root : Json) (tf : filtercheck_field_info)
    (h : root.getMem ( "isRequired") = Json.bool true) :
    sinsp_plugin.rdfa_isRequired pn root tf =
      .ok { tf with m_flags := { tf.m_flags with arg_required := true } } := by
  simp [sinsp_plugin.rdfa_isRequired, h, Json.isNull, Json.isBool, Json.asBool]

theorem rdfa_isIndex_not_true (pn : String) (root : Json) (tf : filtercheck_field_info)
    (h : root.getMem ( "isIndex") ≠ Json.bool true) :
    sinsp_plugin.rdfa_isIndex pn root tf = .ok tf ∨
    sinsp_plugin.rdfa_isIndex pn root tf =
      .error ( "error in plugin " ++ pn ++ ": field " ++ tf.m_name ++
        " isIndex property is not boolean") := by
  rcases hv : root.getMem ( "isIndex") with _ | b | n | s | a | o
  · exact Or.inl (by simp [sinsp_plugin.rdfa_isIndex, hv, Json.isNull])
  · cases b with
    | true => exact absurd hv h
    | false =>
      exact Or.inl (by simp [sinsp_plugin.rdfa_isIndex, hv, Json.isNull, Json.isBool, Json.asBool])
  all_goals
    exact Or.inr (by simp [sinsp_plugin.rdfa_isIndex, hv, Json.isNull, Json.isBool])

theorem rdfa_isKey_not_true (pn : String) (root : Json) (tf : filtercheck_field_info)
    (h : root.getMem ( "isKey") ≠ Json.bool true) :
    sinsp_plugin.rdfa_isKey pn root tf = .ok tf ∨
    sinsp_plugin.rdfa_isKey pn root tf =
      .error ( "error in plugin " ++ pn ++ ": field " ++ tf.m_name ++
        " isKey property is not boolean") := by
  rcases hv : root.getMem ( "isKey") with _ | b | n | s | a | o
  · exact Or.inl (by simp [sinsp_plugin.rdfa_isKey, hv, Json.isNull])
  · cases b with
    | true => exact absurd hv h
    | false =>
      exact Or.inl (by simp [sinsp_plugin.rdfa_isKey, hv, Json.isNull, Json.isBool, Json.asBool])
  all_goals
    exact Or.inr (by simp [sinsp_plugin.rdfa_isKey, hv, Json.isNull, Json.isBool])

/-- Claim C4: for a field whose entry flags carry no argument flags (as in the
descriptor loop, where flags start from `EPF_NONE` plus possibly `isList`),
every successfully processed `arg` object yields flags satisfying the closure
`ARG_REQUIRED → ARG_INDEX ∨ ARG_KEY` and `ARG_INDEX ∨ ARG_KEY → ARG_ALLOWED`;
and an `arg` object declaring `isRequired: true` with neither `isIndex` nor
`isKey` true is rejected with an error mentioning the plugin and the field. -/
theorem claim_C4 (pn : String) (root : Json) (tf : filtercheck_field_info)
    (hreq : tf.m_flags.arg_required = false)
    (hidx : tf.m_flags.arg_index = false)
    (hkey : tf.m_flags.arg_key = false) :
    (∀ tf', sinsp_plugin.resolve_dylib_field_arg pn root tf = .ok tf' →
      (tf'.m_flags.arg_required = true →
        tf'.m_flags.arg_index = true ∨ tf'.m_flags.arg_key = true) ∧
      ((tf'.m_flags.arg_index = true ∨ tf'.m_flags.arg_key = true) →
        tf'.m_flags.arg_allowed = true)) ∧
    ((root.getMem ( "isRequired") = Json.bool true ∧
      root.getMem ( "isIndex") ≠ Json.bool true ∧
      root.getMem ( "isKey") ≠ Json.bool true) →
      ∃ e, sinsp_plugin.resolve_dylib_field_arg pn root tf = .error e ∧
        strMentions e pn ∧ strMentions e tf.m_name) := by
  constructor
  · intro tf' h
    unfold sinsp_plugin.resolve_dylib_field_arg at h
    split at h
    · injection h with h'
      subst h'
      simp [hreq, hidx, hkey]
    · split at h
      next e1 h1 => exact absurd h (by simp)
      next tf1 h1 =>
        split at h
        next e2 h2 => exact absurd h (by simp)
        next tf2 h2 =>
          split at h
          next e3 h3 => exact absurd h (by simp)
          next tf3 h3 =>
            split at h
            next hcond => exact absurd h (by simp)
            next hcond =>
              injection h with h'
              subst h'
              simp only [Bool.not_eq_true, Bool.and_eq_false_imp] at hcond
              rcases rdfa_isRequired_ok pn root tf tf1 h1 with rfl | rfl <;>
                rcases rdfa_isIndex_ok pn root _ tf2 h2 with rfl | rfl <;>
                rcases rdfa_isKey_ok pn root _ tf3 h3 with rfl | rfl <;>
                simp_all
  · rintro ⟨hreqT, hidxNT, hkeyNT⟩
    unfold sinsp_plugin.resolve_dylib_field_arg
    split
    next hn =>
      exfalso
      cases root <;> simp [Json.isNull] at hn <;> simp [Json.getMem] at hreqT
    next hn =>
      rw [rdfa_isRequired_true pn root tf hreqT]
      simp only []
      rcases rdfa_isIndex_not_true pn root
          { tf with m_flags := { tf.m_flags with arg_required := true } } hidxNT with h2 | h2 <;>
        rw [h2] <;> simp only []
      · rcases rdfa_isKey_not_true pn root
            { tf with m_flags := { tf.m_flags with arg_required := true } } hkeyNT with h3 | h3 <;>
          rw [h3] <;> simp only []
        · rw [if_pos (by simp [hidx, hkey])]
          exact ⟨_, rfl, (mentions_plugin_and_field _ pn _ tf.m_name _).1,
            (mentions_plugin_and_field _ pn _ tf.m_name _).2⟩
        · exact ⟨_, rfl, (mentions_plugin_and_field _ pn _ tf.m_name _).1,
            (mentions_plugin_and_field _ pn _ tf.m_name _).2⟩
      · exact ⟨_, rfl, (mentions_plugin_and_field _ pn _ tf.m_name _).1,
          (mentions_plugin_and_field _ pn _ tf.m_name _).2⟩

/-- Fixture: a field descriptor entry with clean flags. -/
def fx_tf : filtercheck_field_info :=
  ⟨ "f1", "", "d", ppm_param_type.PT_UINT64, ppm_print_format.PF_DEC, EPF_NONE⟩

/-- Fixture: an `arg` object declaring `isRequired` and `isIndex`. -/
def fx_arg_ok : Json := Json.obj [( "isRequired", Json.bool true), ( "isIndex", Json.bool true)]

/-- Fixture: an `arg` object declaring only `isRequired`. -/
def fx_arg_bad : Json := Json.obj [( "isRequired", Json.bool true)]

theorem claim_C4_witness :
    (∀ tf', sinsp_plugin.resolve_dylib_field_arg ( "myplugin") fx_arg_ok fx_tf = .ok tf' →
      (tf'.m_flags.arg_required = true →
        tf'.m_flags.arg_index = true ∨ tf'.m_flags.arg_key = true) ∧
      ((tf'.m_flags.arg_index = true ∨ tf'.m_flags.arg_key = true) →
        tf'.m_flags.arg_allowed = true)) ∧
    (∃ e, sinsp_plugin.resolve_dylib_field_arg ( "myplugin") fx_arg_bad fx_tf = .error e ∧
      strMentions e ( "myplugin") ∧ strMentions e fx_tf.m_name) :=
  ⟨(claim_C4 ( "myplugin") fx_arg_ok fx_tf rfl rfl rfl).1,
   (claim_C4 ( "myplugin") fx_arg_bad fx_tf rfl rfl rfl).2
     ⟨rfl, fun hc => Json.noConfusion hc, fun hc => Json.noConfusion hc⟩⟩

/-- Claim C5: when the plugin's declared event-code set is empty (null symbol
or empty array), the resolved code set defaults to all syscall events if the
resolved source set is compatible with the built-in syscall source (an empty
source set counts as compatible), and to the singleton plugin-event code
otherwise. -/
theorem claim_C5 (pn : String) (caps : Caps) (es symsources : String)
    (get_sources : Option String) (get_codes : Option (List Nat))
    (srcs : List String) (codes : List Nat)
    (hempty : get_codes = none ∨ get_codes = some [])
    (hres : sinsp_plugin.resolve_dylib_sources_codes pn caps es symsources
      get_sources get_codes = .ok (srcs, codes)) :
    codes = if sinsp_plugin.is_source_compatible srcs sinsp_syscall_event_source_name
      then all_event_set else [PPME_PLUGINEVENT_E] := by
  rcases hempty with rfl | rfl <;>
    (unfold sinsp_plugin.resolve_dylib_sources_codes at hres
     simp only [] at hres
     split at hres
     · exact absurd hres (by simp)
     · simp at hres
       obtain ⟨h1, h2⟩ := hres
       subst h1
       exact h2.symm)

theorem claim_C5_witness :
    ([PPME_PLUGINEVENT_E] : List Nat) =
      if sinsp_plugin.is_source_compatible [ "esrc"] sinsp_syscall_event_source_name
        then all_event_set else [PPME_PLUGINEVENT_E] :=
  claim_C5 ( "p") ⟨true, true, false⟩ ( "esrc") ( "get_extract_event_sources") none none
    [ "esrc"] [PPME_PLUGINEVENT_E] (Or.inl rfl) (by rfl)

theorem rdsc_event_source_mem (pn : String) (caps : Caps) (es symsources : String)
    (gs : Option String) (gc : Option (List Nat)) (srcs : List String) (codes : List Nat)
    (hsrc : caps.sourcing = true) (hes : es ≠ "")
    (hres : sinsp_plugin.resolve_dylib_sources_codes pn caps es symsources gs gc =
      .ok (srcs, codes)) :
    es ∈ srcs := by
  unfold sinsp_plugin.resolve_dylib_sources_codes at hres
  simp only [] at hres
  split at hres
  · exact absurd hres (by simp)
  next srcs0 hs =>
    injection hres with h
    simp only [Prod.mk.injEq] at h
    obtain ⟨h1, h2⟩ := h
    rw [← h1, if_pos ⟨hsrc, hes⟩]
    exact mem_insertStr_self srcs0 es

theorem resolve_extraction_spec (p : sinsp_plugin) (h : PluginHandle) (p' : sinsp_plugin)
    (hres : sinsp_plugin.resolve_extraction p h = .ok p') :
    p'.m_caps = p.m_caps ∧ p'.m_event_source = p.m_event_source ∧
    (p.m_caps.sourcing = true → p.m_event_source ≠ "" →
      p.m_event_source ∈ p'.m_extract_event_sources) := by
  unfold sinsp_plugin.resolve_extraction at hres
  split at hres
  · exact absurd hres (by simp)
  next json =>
    split at hres
    next js =>
      split at hres
      · exact absurd hres (by simp)
      next fs hfs =>
        split at hres
        · exact absurd hres (by simp)
        next sc hsc =>
          injection hres with h'
          subst h'
          exact ⟨rfl, rfl, fun hs he => rdsc_event_source_mem _ _ _ _ _ _ _ _ hs he hsc⟩
    next hx hy => exact absurd hres (by simp)

theorem resolve_parsing_spec (p : sinsp_plugin) (h : PluginHandle) (p' : sinsp_plugin)
    (hres : sinsp_plugin.resolve_parsing p h = .ok p') :
    p'.m_caps = p.m_caps ∧ p'.m_event_source = p.m_event_source ∧
    p'.m_extract_event_sources = p.m_extract_event_sources ∧
    (p.m_caps.sourcing = true → p.m_event_source ≠ "" →
      p.m_event_source ∈ p'.m_parse_event_sources) := by
  unfold sinsp_plugin.resolve_parsing at hres
  split at hres
  · exact absurd hres (by simp)
  next sc hsc =>
    injection hres with h'
    subst h'
    exact ⟨rfl, rfl, rfl, fun hs he => rdsc_event_source_mem _ _ _ _ _ _ _ _ hs he hsc⟩

theorem step_extraction (p3 p4 : sinsp_plugin) (h : PluginHandle)
    (heq : (if p3.m_caps.extraction = true then sinsp_plugin.resolve_extraction p3 h
      else .ok p3) = .ok p4) :
    p4.m_caps = p3.m_caps ∧ p4.m_event_source = p3.m_event_source ∧
    (p4.m_caps.extraction = true → p4.m_caps.sourcing = true → p4.m_event_source ≠ "" →
      p4.m_event_source ∈ p4.m_extract_event_sources) := by
  split at heq
  next hext =>
    obtain ⟨h1, h2, h3⟩ := resolve_extraction_spec p3 h p4 heq
    refine ⟨h1, h2, fun _ hs he => ?_⟩
    rw [h2]
    exact h3 (by rw [← h1]; exact hs) (by rw [← h2]; exact he)
  next hext =>
    injection heq with h'
    subst h'
    refine ⟨rfl, rfl, fun hc _ _ => absurd hc hext⟩

theorem step_parsing (p4 p5 : sinsp_plugin) (h : PluginHandle)
    (heq : (if p4.m_caps.parsing = true then sinsp_plugin.resolve_parsing p4 h
      else .ok p4) = .ok p5) :
    p5.m_caps = p4.m_caps ∧ p5.m_event_source = p4.m_event_source ∧
    p5.m_extract_event_sources = p4.m_extract_event_sources ∧
    (p5.m_caps.parsing = true → p5.m_caps.sourcing = true → p5.m_event_source ≠ "" →
      p5.m_event_source ∈ p5.m_parse_event_sources) := by
  split at heq
  next hpar =>
    obtain ⟨h1, h2, h3, h4⟩ := resolve_parsing_spec p4 h p5 heq
    refine ⟨h1, h2, h3, fun _ hs he => ?_⟩
    rw [h2]
    exact h4 (by rw [← h1]; exact hs) (by rw [← h2]; exact he)
  next hpar =>
    injection heq with h'
    subst h'
    refine ⟨rfl, rfl, rfl, fun hc _ _ => absurd hc hpar⟩

/-- Claim C9: after a successful `resolve_dylib_symbols`, a plugin with the
sourcing capability and a non-empty event source always has that event source
in its extract-sources set (when extraction is declared) and in its
parse-sources set (when parsing is declared), regardless of what the plugin's
`get_extract_event_sources` / `get_parse_event_sources` returned. -/
theorem claim_C9 (p : sinsp_plugin) (h : PluginHandle) (e : String) (p' : sinsp_plugin)
    (hres : sinsp_plugin.resolve_dylib_symbols p h = .ok (true, e, p'))
    (hsrc : p'.m_caps.sourcing = true) (hes : p'.m_event_source ≠ "") :
    (p'.m_caps.extraction = true → p'.m_event_source ∈ p'.m_extract_event_sources) ∧
    (p'.m_caps.parsing = true → p'.m_event_source ∈ p'.m_parse_event_sources) := by
  unfold sinsp_plugin.resolve_dylib_symbols at hres
  split at hres
  · exact absurd hres (by simp)
  split at hres
  · exact absurd hres (by simp)
  split at hres
  · exact absurd hres (by simp)
  simp only [] at hres
  split at hres
  · exact absurd hres (by simp)
  next p4 heq4 =>
    split at hres
    · exact absurd hres (by simp)
    next p5 heq5 =>
      injection hres with h'
      simp only [Prod.mk.injEq] at h'
      obtain ⟨hb, he2, hp⟩ := h'
      subst hp
      obtain ⟨e1, e2, e3⟩ := step_extraction _ p4 h heq4
      obtain ⟨q1, q2, q3, q4⟩ := step_parsing p4 _ h heq5
      constructor
      · intro hext
        rw [q2, q3]
        exact e3 (by rw [← q1]; exact hext) (by rw [← q1]; exact hsrc)
          (by rw [← q2]; exact hes)
      · intro hpar
        exact q4 hpar hsrc hes

/-- Fixture: a handle for a plugin with all three capabilities, id 5 and event
source `mysrc`, exporting no fields and no explicit source/code sets. -/
def fx_h : PluginHandle :=
  ⟨true, "", true, "", "testplugin", "desc", "contact", "1.0.0",
   ⟨true, true, true⟩, some 5, some ( "mysrc"), some ( "[]"), none, none, none, none⟩

/-- Fixture: the plugin state produced by resolving `fx_h`. -/
def fx_resolved : sinsp_plugin :=
  ⟨⟨true, true, true⟩, "testplugin", "desc", "contact", "1.0.0", 5, "mysrc",
   false, none, false, [], [ "mysrc"], [PPME_PLUGINEVENT_E], [ "mysrc"], [PPME_PLUGINEVENT_E]⟩

theorem claim_C9_witness :
    (fx_resolved.m_caps.extraction = true →
      fx_resolved.m_event_source ∈ fx_resolved.m_extract_event_sources) ∧
    (fx_resolved.m_caps.parsing = true →
      fx_resolved.m_event_source ∈ fx_resolved.m_parse_event_sources) :=
  claim_C9 sinsp_plugin.new fx_h ( "") fx_resolved (by rfl) rfl (by decide)


/-- Claim C7 (amended): `sinsp_plugin::create` returns a null plugin plus a
textual error for a failed library load, a failed API-version check, a failed
required-symbol check, and an invalid plugin version string; a malformed field
descriptor JSON instead raises a descriptor exception (it does not return the
null-plugin/errstr pair). -/
theorem claim_C7 (h : PluginHandle) (errstr0 : String) (s : String) :
    sinsp_plugin.create none errstr0 = .ok (none, errstr0) ∧
    (h.check_api_version_ok = false →
      sinsp_plugin.create (some h) errstr0 = .ok (none, h.check_api_version_err)) ∧
    (h.check_api_version_ok = true → h.check_symbols_ok = false →
      sinsp_plugin.create (some h) errstr0 = .ok (none, h.check_symbols_err)) ∧
    (h.check_api_version_ok = true → h.check_symbols_ok = true →
      sinsp_version_valid h.get_version = false →
      sinsp_plugin.create (some h) errstr0 =
        .ok (none, "Plugin provided an invalid version string: \x27" ++ h.get_version ++ "\x27")) ∧
    (h.check_api_version_ok = true → h.check_symbols_ok = true →
      sinsp_version_valid h.get_version = true →
      h.caps.extraction = true → h.get_fields = some s → Json.parse s = none →
      ∃ e, sinsp_plugin.create (some h) errstr0 = .error e) := by
  refine ⟨rfl, ?_, ?_, ?_, ?_⟩
  · intro h1
    simp [sinsp_plugin.create, sinsp_plugin.resolve_dylib_symbols, h1]
  · intro h1 h2
    simp [sinsp_plugin.create, sinsp_plugin.resolve_dylib_symbols, h1, h2]
  · intro h1 h2 h3
    simp [sinsp_plugin.create, sinsp_plugin.resolve_dylib_symbols, h1, h2, h3]
  · intro h1 h2 h3 hext hf hp
    have hext' : ∀ q : sinsp_plugin, sinsp_plugin.resolve_extraction q h =
        .error ( "error in plugin " ++ q.m_name ++ ": get_fields returned an invalid JSON") := by
      intro q
      unfold sinsp_plugin.resolve_extraction
      rw [hf]
      simp only []
      rw [hp]
    unfold sinsp_plugin.create
    suffices hsuf : ∃ e, sinsp_plugin.resolve_dylib_symbols sinsp_plugin.new h = .error e by
      obtain ⟨e, he⟩ := hsuf
      exact ⟨e, by simp only []; rw [he]⟩
    unfold sinsp_plugin.resolve_dylib_symbols
    rw [if_neg (by simp [h1]), if_neg (by simp [h2]), if_neg (by simp [h3])]
    simp only []
    have key : ∀ q : sinsp_plugin, q.m_caps.extraction = true →
        (match (if q.m_caps.extraction = true then sinsp_plugin.resolve_extraction q h
            else .ok q) with
         | .error e => (.error e : Except String (Bool × String × sinsp_plugin))
         | .ok p4 =>
           match (if p4.m_caps.parsing = true then sinsp_plugin.resolve_parsing p4 h
               else .ok p4) with
           | .error e => .error e
           | .ok p5 => .ok (true, "", p5)) =
        .error ( "error in plugin " ++ q.m_name ++ ": get_fields returned an invalid JSON") := by
      intro q hq
      rw [if_pos hq, hext' q]
    exact ⟨_, key _ (by split <;> (try split) <;> (try split) <;> simp [hext])⟩

/-- Fixture: a handle whose `get_fields` returns malformed JSON. -/
def fx_hBadJson : PluginHandle :=
  { fx_h with get_fields := some ( "not json"), caps := ⟨false, true, false⟩ }

theorem claim_C7_counterexample :
    sinsp_plugin.create (some fx_hBadJson) ( "") =
      .error ( "error in plugin testplugin: get_fields returned an invalid JSON") := rfl

theorem claim_C7_witness :
    sinsp_plugin.create none ( "load failed") = .ok (none, "load failed") ∧
    (∃ e, sinsp_plugin.create (some fx_hBadJson) ( "") = .error e) ∧
    sinsp_plugin.create (some { fx_h with get_version := "nope" }) ( "") =
      .ok (none, "Plugin provided an invalid version string: \x27nope\x27") :=
  ⟨(claim_C7 fx_hBadJson ( "load failed") ( "not json")).1,
   (claim_C7 fx_hBadJson ( "") ( "not json")).2.2.2.2 rfl rfl rfl rfl rfl rfl,
   (claim_C7 { fx_h with get_version := "nope" } ( "") ( "")).2.2.2.1 rfl rfl rfl⟩


/-- Claim C6: during `init`, a non-empty JSON schema supplied via
`get_init_schema` makes the host validate the config against it, treating an
empty config string as `\x7b\x7d`; on validation failure `init` raises a schema
error naming the plugin that reports only the first (top-most) validation
error with its context path and message. (The concrete scenario — config
`\x7b\x7d` against a schema requiring property `k` — is the witness.) -/
theorem claim_C6 (p : sinsp_plugin) (api : PluginApi) (config schemaStr : String)
    (sv cv : Json) (e : VError) (rest : List VError)
    (hpi : p.m_inited = false) (hpres : api.init_present = true)
    (hschema : sinsp_plugin.get_init_schema api = (SS_PLUGIN_SCHEMA_JSON, schemaStr))
    (hne : schemaStr ≠ "")
    (hps : Json.parse schemaStr = some sv) (hobj : sv.isObj = true)
    (hpc : Json.parse (if config.length = 0 then ( "\x7b\x7d") else config) = some cv)
    (hval : valijson_validate sv cv = some (e :: rest)) :
    sinsp_plugin.init p api config =
      .error ( "error in plugin " ++ p.m_name ++ " init config: In " ++
        String.join e.context ++ ", " ++ e.description) ∧
    sinsp_plugin.validate_init_config_json_schema p.m_name ( "") schemaStr =
      sinsp_plugin.validate_init_config_json_schema p.m_name ( "\x7b\x7d") schemaStr := by
  have hv : sinsp_plugin.validate_init_config p api config =
      .error ( "error in plugin " ++ p.m_name ++ " init config: In " ++
        String.join e.context ++ ", " ++ e.description) := by
    unfold sinsp_plugin.validate_init_config
    rw [hschema]
    simp only []
    rw [if_pos ⟨hne, by decide⟩, if_pos trivial]
    unfold sinsp_plugin.validate_init_config_json_schema
    rw [hps]
    simp only []
    rw [if_neg (by simp [hobj])]
    rw [hpc]
    simp only []
    rw [hval]
  constructor
  · unfold sinsp_plugin.init
    rw [if_neg (by simp [hpi]), if_neg (by simp [hpres]), hv]
  · unfold sinsp_plugin.validate_init_config_json_schema
    cases hq : Json.parse schemaStr <;> rfl

/-- Fixture: the schema requiring property `k` from the spec scenario. -/
def fx_schema : String := "\x7b\"type\":\"object\",\"required\":[\"k\"]\x7d"

/-- Fixture: the parsed form of `fx_schema`. -/
def fx_schema_json : Json :=
  Json.obj [( "type", Json.str ( "object")), ( "required", Json.arr [Json.str ( "k")])]

/-- Fixture: an API exposing `fx_schema` as its init schema. -/
def fx_api_schema : PluginApi := { fx_api with get_init_schema_sym := some (1, fx_schema) }

theorem claim_C6_witness :
    sinsp_plugin.init fx_p fx_api_schema ( "\x7b\x7d") =
      .error
        ( "error in plugin myplugin init config: In <root>, Missing required property \x27k\x27.") ∧
    sinsp_plugin.validate_init_config_json_schema fx_p.m_name ( "") fx_schema =
      sinsp_plugin.validate_init_config_json_schema fx_p.m_name ( "\x7b\x7d") fx_schema :=
  claim_C6 fx_p fx_api_schema ( "\x7b\x7d") fx_schema fx_schema_json (Json.obj [])
    ⟨[ "<root>"], "Missing required property \x27k\x27."⟩ [] rfl rfl rfl (by decide)
    (by rfl) rfl (by rfl) (by rfl)

theorem parse_nonempty (s : String) (v : Json) (h : Json.parse s = some v) : s.length > 0 := by
  rcases s with ⟨data⟩
  cases data with
  | nil =>
    rw [show Json.parse (String.mk []) = none from rfl] at h
    exact Option.noConfusion h
  | cons c cs => simp [String.length]

theorem collect_open_params_err (pn : String) (js : List Json)
    (hex : ∃ j ∈ js, (j.getMem ( "value")).asStringD = "") :
    collect_open_params pn js =
      .error ( "error in plugin " ++ pn ++ ": list_open_params has entry with no value") := by
  induction js with
  | nil => simp at hex
  | cons j0 rest ih =>
    unfold collect_open_params
    by_cases h0 : (j0.getMem ( "value")).asStringD = ""
    · rw [if_pos h0]
    · rw [if_neg h0]
      have hex' : ∃ j ∈ rest, (j.getMem ( "value")).asStringD = "" := by
        rcases hex with ⟨j, hj, hv⟩
        rcases List.mem_cons.mp hj with rfl | hj'
        · exact absurd hv h0
        · exact ⟨j, hj', hv⟩
      rw [ih hex']


/-- Claim C8: for an initialized plugin with a live state handle,
`list_open_params` parses the plugin's JSON response into `open_param`
entries; any entry whose `value` member is empty or absent is rejected with an
error naming the plugin, a non-array JSON response (unparsable or a non-array
value) is rejected, and an empty or absent response (empty string, or the
symbol absent altogether) yields an empty list. -/
theorem claim_C8 (p : sinsp_plugin) (api : PluginApi) (st : Nat)
    (hinit : p.m_inited = true) (hstate : p.m_state = some st) :
    (api.list_open_params_present = false → sinsp_plugin.list_open_params p api = .ok []) ∧
    (api.list_open_params_present = true →
      (∀ s js, api.list_open_params_fn p.m_state = (s, true) →
        Json.parse s = some (Json.arr js) →
        (∀ j ∈ js, j.isObj = true ∨ j.isNull = true) →
        (∃ j ∈ js, (j.getMem ( "value")).asStringD = "") →
        sinsp_plugin.list_open_params p api =
          .error ( "error in plugin " ++ p.m_name ++
            ": list_open_params has entry with no value")) ∧
      (∀ s, api.list_open_params_fn p.m_state = (s, true) → Json.parse s = none →
        s.length > 0 →
        sinsp_plugin.list_open_params p api =
          .error ( "error in plugin " ++ p.m_name ++
            ": list_open_params returned a non-array JSON")) ∧
      (∀ s v, api.list_open_params_fn p.m_state = (s, true) → Json.parse s = some v →
        v.isArr = false →
        sinsp_plugin.list_open_params p api =
          .error ( "error in plugin " ++ p.m_name ++
            ": list_open_params returned a non-array JSON")) ∧
      (api.list_open_params_fn p.m_state = ( "", true) →
        sinsp_plugin.list_open_params p api = .ok [])) := by
  constructor
  · intro hp
    unfold sinsp_plugin.list_open_params
    rw [if_neg (by simp [hinit]), if_neg (by simp [hp])]
  · intro hp
    refine ⟨?_, ?_, ?_, ?_⟩
    · intro s js hfn hparse _hjs hex
      unfold sinsp_plugin.list_open_params
      rw [if_neg (by simp [hinit]), if_pos (by simp [hstate, hp]), hfn]
      simp only []
      rw [if_neg (by simp), if_pos (parse_nonempty s _ hparse), hparse]
      simp only []
      exact collect_open_params_err p.m_name js hex
    · intro s hfn hparse hlen
      unfold sinsp_plugin.list_open_params
      rw [if_neg (by simp [hinit]), if_pos (by simp [hstate, hp]), hfn]
      simp only []
      rw [if_neg (by simp), if_pos hlen, hparse]
    · intro s v hfn hparse hv
      unfold sinsp_plugin.list_open_params
      rw [if_neg (by simp [hinit]), if_pos (by simp [hstate, hp]), hfn]
      simp only []
      rw [if_neg (by simp), if_pos (parse_nonempty s _ hparse), hparse]
      rcases v with _ | b | n | s' | a | o <;> simp only []
      exact absurd hv (by simp [Json.isArr])
    · intro hfn
      unfold sinsp_plugin.list_open_params
      rw [if_neg (by simp [hinit]), if_pos (by simp [hstate, hp]), hfn]
      simp only []
      rw [if_neg (by simp), if_neg (by simp)]

/-- Fixture: an initialized plugin with state handle 1. -/
def fx_pi : sinsp_plugin := { fx_p with m_inited := true, m_state := some 1 }

/-- Fixture: an API whose `list_open_params` returns the given string with
success. -/
def fx_apiLop (s : String) : PluginApi :=
  { fx_api with list_open_params_present := true, list_open_params_fn := fun _ => (s, true) }

theorem claim_C8_witness :
    sinsp_plugin.list_open_params fx_pi (fx_apiLop ( "[\x7b\"desc\":\"d\"\x7d]")) =
      .error ( "error in plugin myplugin: list_open_params has entry with no value") ∧
    sinsp_plugin.list_open_params fx_pi (fx_apiLop ( "3")) =
      .error ( "error in plugin myplugin: list_open_params returned a non-array JSON") ∧
    sinsp_plugin.list_open_params fx_pi (fx_apiLop ( "")) = .ok [] ∧
    sinsp_plugin.list_open_params fx_pi fx_api = .ok [] :=
  ⟨((claim_C8 fx_pi (fx_apiLop ( "[\x7b\"desc\":\"d\"\x7d]")) 1 rfl rfl).2 rfl).1
      ( "[\x7b\"desc\":\"d\"\x7d]") [Json.obj [( "desc", Json.str ( "d"))]] rfl (by rfl)
      (fun j hj => by rcases List.mem_singleton.mp hj with rfl; exact Or.inl rfl)
      ⟨Json.obj [( "desc", Json.str ( "d"))], List.mem_singleton.mpr rfl, rfl⟩,
   ((claim_C8 fx_pi (fx_apiLop ( "3")) 1 rfl rfl).2 rfl).2.2.1
      ( "3") (Json.num 3) rfl (by rfl) rfl,
   ((claim_C8 fx_pi (fx_apiLop ( "")) 1 rfl rfl).2 rfl).2.2.2 rfl,
   (claim_C8 fx_pi fx_api 1 rfl rfl).1 rfl⟩
